import Mathlib

/-!
Verification of the JNI bridge in `app/src/main/cpp/native-lib.cpp`
(fcitx5-android).

The source is a thin bridge between a Java host and the embedded fcitx5
engine.  We embed it shallowly:

* The four process-wide globals (`p_instance`, `p_dispatcher`, `p_frontend`,
  `p_uuid`, lines 46-49) become a `Handle` record of `Option` fields.  The
  pointers carry no interesting data for the bridge, so they are modelled as
  `Option Unit`; `p_uuid` is likewise `Option Unit` where `none` means "never
  assigned since process start / not reassigned by a reset".  (In C++
  `p_uuid` is a plain `std::array` value that `resetGlobalPointers` does not
  touch; modelling it as an `Option` that reset leaves alone captures
  exactly that.)
* Engine-internal behaviour (the result of `Instance::exec`, the frontend's
  answer to `isInputPanelEmpty`) is external to the bridge and is passed in
  as a parameter (`ExecOutcome`, a `Bool`), following the spec's
  `{NormalExit(code), QuietExit, Failure(message)}` modelling of the
  `try/catch` around `exec` (lines 151-163).
* `jniLog` (line 42) appends a message to a `log` list; `setenv` appends the
  assignment to an `env` list (the chronological sequence of `setenv` calls);
  `EventDispatcher::schedule` appends a `WorkItem` to a `queue` list.
* For the interleaving claims (C1) the individual global writes performed
  during one startup / run / shutdown cycle are listed as atomic actions
  (`Act`), in the order the code performs them; a guarded operation running
  on another host thread may observe the `Handle` between any two atomic
  writes, so the observable handle states are exactly the `scanl` trace of
  those actions.
-/

/-- The four process-wide globals of native-lib.cpp lines 46-49:
`p_instance`, `p_dispatcher`, `p_frontend` (smart pointers, `none` = null)
and `p_uuid` (`none` = never assigned). -/
structure Handle where
  p_instance : Option Unit
  p_dispatcher : Option Unit
  p_frontend : Option Unit
  p_uuid : Option Unit
deriving DecidableEq

/-- All four globals null / unassigned: the process-start state. -/
def Handle.unset : Handle := ⟨none, none, none, none⟩

/-- All four globals set: the fully running state. -/
def Handle.allSet (h : Handle) : Bool :=
  h.p_instance.isSome && h.p_dispatcher.isSome && h.p_frontend.isSome && h.p_uuid.isSome

/-- All four globals unset. -/
def Handle.allUnset (h : Handle) : Bool :=
  h.p_instance.isNone && h.p_dispatcher.isNone && h.p_frontend.isNone && h.p_uuid.isNone

/-- The liveness check of the DO_IF_NOT_RUNNING macro (lines 166-170):
`p_instance == nullptr || p_dispatcher == nullptr || p_frontend == nullptr`.
Note it inspects only three of the four globals. -/
def Handle.notRunning (h : Handle) : Bool :=
  h.p_instance.isNone || h.p_dispatcher.isNone || h.p_frontend.isNone

/-- Reads the bytes a C string pointer yields: the bytes of memory up to
(excluding) the first NUL byte.  Used to model `fcitx::Key(const char*)`:
the key is a function of exactly these bytes. -/
def cstr (mem : List Nat) : List Nat := mem.takeWhile (fun b => b ≠ 0)

/-- A deferred action submitted to the `EventDispatcher`.  The closures the
code schedules are represented by one constructor each, carrying the values
the closure captured by copy. -/
inductive WorkItem where
  /-- The startup wiring closure, lines 134-149. -/
  | initWiring
  /-- The shutdown closure of `exitFcitx`, lines 179-182: detach the
  dispatcher, request the instance to exit. -/
  | shutdownReq
  /-- `keyEvent` closure (lines 192-194 / 202-204) capturing the parsed key,
  modelled by the C-string bytes the `fcitx::Key` constructor read. -/
  | keyEvent (key : List Nat)
  /-- `selectCandidate` closure, lines 212-214. -/
  | selectCand (idx : Int)
  /-- `resetInputPanel` closure, lines 228-230. -/
  | resetPanel
deriving DecidableEq

/-- Outcome of the engine's run loop `p_instance->exec()` as observed by the
`try/catch` of lines 151-161: a normal return with an exit code, the
recognized `fcitx::InstanceQuietQuit` exception, or any other
`std::exception` escaping the run loop. -/
inductive ExecOutcome where
  | normal (code : Int)
  | quietQuit
  | failure (msg : String)
deriving DecidableEq

/-- The bridge-visible process state: the four globals, the chronological
list of `setenv` calls performed, the dispatcher queue, the chronological
`jniLog` output, whether the dispatcher is attached to the event loop, and
whether `Instance::exit` has been requested. -/
structure FullState where
  handle : Handle
  env : List (String × String)
  queue : List WorkItem
  log : List String
  attached : Bool
  exitRequested : Bool
deriving DecidableEq

/-- Process state at load time: nothing set, nothing logged. -/
def initialState : FullState :=
  { handle := Handle.unset, env := [], queue := [], log := [],
    attached := false, exitRequested := false }

/-- The warning `jniLog("fcitx is not running!")` of the guard macro
(line 168). -/
def notRunningMsg : String := "fcitx is not running!"

/-- `resetGlobalPointers` (lines 51-56): logs, then nulls `p_instance`,
`p_dispatcher`, `p_frontend` — and does not touch `p_uuid`. -/
def resetGlobalPointers (st : FullState) : FullState :=
  let st := { st with log := st.log ++ ["resetGlobalPointers"] }
  let st := { st with handle := { st.handle with p_instance := none } }
  let st := { st with handle := { st.handle with p_dispatcher := none } }
  { st with handle := { st.handle with p_frontend := none } }

/-- The eight `setenv` calls of lines 77-91, in source order, with the
values derived from the three path arguments. -/
def envAssignments (appData appLib extData : String) : List (String × String) :=
  let libime := appData ++ "/fcitx5/libime"
  [("SKIP_FCITX_PATH", "true"),
   ("HOME", extData),
   ("XDG_DATA_DIRS", appData),
   ("XDG_CONFIG_HOME", extData),
   ("XDG_DATA_HOME", extData),
   ("FCITX_ADDON_DIRS", appLib),
   ("LIBIME_MODEL_DIRS", libime),
   ("LIBIME_INSTALL_PKGDATADIR", libime)]

/-- Executing one dequeued `WorkItem` on the event thread.  `initWiring`
(lines 134-149) configures the group and callbacks, creates the input
context, then stores `p_frontend` (line 147) and `p_uuid` (line 148);
`shutdownReq` (lines 179-182) detaches the dispatcher and requests exit;
the remaining items call into the frontend addon, which is engine-internal
and leaves the bridge state unchanged. -/
def runWorkItem (st : FullState) : WorkItem → FullState
  | WorkItem.initWiring =>
      let st := { st with handle := { st.handle with p_frontend := some () } }
      { st with handle := { st.handle with p_uuid := some () } }
  | WorkItem.shutdownReq => { st with attached := false, exitRequested := true }
  | WorkItem.keyEvent _ => st
  | WorkItem.selectCand _ => st
  | WorkItem.resetPanel => st

/-- The event loop inside `p_instance->exec()`: executes the queued work
items in submission order. -/
def execLoop (st : FullState) : FullState :=
  st.queue.foldl runWorkItem { st with queue := [] }

/-- `Java_..._startupFcitx` (lines 70-164).  `outcome` is how the engine's
run loop terminates (it is engine-internal).  Returns the jint status and
the final state:
* lines 71-74: if `p_instance` is non-null, log and return 2;
* lines 77-91: perform the eight `setenv` calls;
* line 129: construct the instance; line 131: construct the dispatcher;
  line 132: attach it; lines 134-149: schedule the wiring work item;
* lines 151-163: run `exec` (which executes the queued items), then on
  normal return reset and return the loop's code; on quiet quit reset and
  return 0; on any other exception log the detail, reset, and return 1. -/
def startupFcitx (appData appLib extData : String) (outcome : ExecOutcome)
    (st : FullState) : Int × FullState :=
  if st.handle.p_instance.isSome then
    (2, { st with log := st.log ++ ["fcitx already running"] })
  else
    let st := { st with log := st.log ++ ["startupFcitx"] }
    let st := { st with env := st.env ++ envAssignments appData appLib extData }
    let st := { st with handle := { st.handle with p_instance := some () } }
    let st := { st with handle := { st.handle with p_dispatcher := some () }, attached := true }
    let st := { st with queue := st.queue ++ [WorkItem.initWiring] }
    let st := execLoop st
    match outcome with
    | ExecOutcome.normal code => (code, resetGlobalPointers st)
    | ExecOutcome.quietQuit => (0, resetGlobalPointers st)
    | ExecOutcome.failure msg =>
        (1, resetGlobalPointers
          { st with log := st.log ++ ["fcitx exited with exception:", msg] })

/-- `Java_..._exitFcitx` (lines 174-183): if not running, warn and return;
otherwise log and schedule the shutdown work item.  It does not execute the
item itself. -/
def exitFcitx (st : FullState) : FullState :=
  if st.handle.notRunning then { st with log := st.log ++ [notRunningMsg] }
  else
    { st with
      log := st.log ++ ["shutting down fcitx"],
      queue := st.queue ++ [WorkItem.shutdownReq] }

/-- `Java_..._sendKeyToFcitxString` (lines 185-195): guard, parse the key
from the UTF chars of the Java string (a NUL-terminated C string), schedule
the key event. -/
def sendKeyToFcitxString (st : FullState) (key : List Nat) : FullState :=
  if st.handle.notRunning then { st with log := st.log ++ [notRunningMsg] }
  else { st with queue := st.queue ++ [WorkItem.keyEvent (cstr key)] }

/-- The two bytes of a 16-bit `jchar` in memory on a little-endian platform
(all Android ABIs are little-endian): low byte first. -/
def leBytes16 (c : Nat) : List Nat := [c % 256, c / 256 % 256]

/-- The bytes `fcitx::Key((const char*) &c)` (line 201) actually reads: the
C string formed by the two bytes of the `jchar` followed by whatever bytes
`rest` happen to sit after it in memory. -/
def charKeyBytes (c : Nat) (rest : List Nat) : List Nat :=
  cstr (leBytes16 c ++ rest)

/-- The bytes read for code unit `c` depend only on `c`, not on the
adjacent memory contents. -/
def charKeyDetermined (c : Nat) : Prop :=
  ∀ r1 r2, charKeyBytes c r1 = charKeyBytes c r2

/-- `Java_..._sendKeyToFcitxChar` (lines 197-205): guard, reinterpret the
in-memory bytes of the `jchar` as a C string, schedule the key event.
`rest` is the unspecified memory following the 2-byte value. -/
def sendKeyToFcitxChar (st : FullState) (c : Nat) (rest : List Nat) : FullState :=
  if st.handle.notRunning then { st with log := st.log ++ [notRunningMsg] }
  else { st with queue := st.queue ++ [WorkItem.keyEvent (charKeyBytes c rest)] }

/-- `Java_..._selectCandidate` (lines 207-215): guard, log, schedule. -/
def selectCandidate (st : FullState) (idx : Int) : FullState :=
  if st.handle.notRunning then { st with log := st.log ++ [notRunningMsg] }
  else
    { st with
      log := st.log ++ ["select candidate #" ++ toString idx],
      queue := st.queue ++ [WorkItem.selectCand idx] }

/-- `Java_..._isInputPanelEmpty` (lines 217-222): if not running, return
`true`; otherwise return the frontend addon's (engine-internal) answer,
passed in as `frontendAnswer`. -/
def isInputPanelEmpty (st : FullState) (frontendAnswer : Bool) : Bool × FullState :=
  if st.handle.notRunning then (true, { st with log := st.log ++ [notRunningMsg] })
  else (frontendAnswer, st)

/-- `Java_..._resetInputPanel` (lines 224-231): guard, schedule. -/
def resetInputPanel (st : FullState) : FullState :=
  if st.handle.notRunning then { st with log := st.log ++ [notRunningMsg] }
  else { st with queue := st.queue ++ [WorkItem.resetPanel] }

/-! ### Fine-grained write trace of one startup / run / shutdown cycle

Guarded operations run on arbitrary host call threads and read the globals
without synchronisation, so they can observe the `Handle` between any two of
the atomic writes below.  `startupCycleActs` lists, in execution order, the
individual actions of a `startupFcitx` call that proceeds to a run and
terminates (the wiring item executes inside `exec`, lines 134-149; the
resets are the three assignments of `resetGlobalPointers`, lines 53-55). -/

/-- One atomic action of the startup cycle, in terms of its effect on the
process-wide state. -/
inductive Act where
  /-- a `jniLog` call -/
  | logMsg (s : String)
  /-- a `setenv` call (lines 77-91) -/
  | setEnvVar (name value : String)
  /-- line 129: `p_instance = std::make_unique<...>` -/
  | makeInstance
  /-- line 130: `registerDefaultLoader` -/
  | registerLoader
  /-- line 131: `p_dispatcher = std::make_unique<...>` -/
  | makeDispatcher
  /-- line 132: `p_dispatcher->attach(...)` -/
  | attachDispatcher
  /-- lines 134-149: `p_dispatcher->schedule(...)` of the wiring closure -/
  | scheduleInit
  /-- line 152: `exec` begins running the event loop -/
  | execStart
  /-- lines 135-139: input-method group configuration (inside the item) -/
  | groupConfig
  /-- lines 142-145: the four callback registrations (inside the item) -/
  | wireCallbacks
  /-- line 146: `createInputContext` (inside the item) -/
  | createContext
  /-- line 147: `p_frontend.reset(androidfrontend)` (inside the item) -/
  | storeFrontend
  /-- line 148: `p_uuid = uuid` (inside the item) -/
  | storeUuid
  /-- line 152: `exec` returns (shutdown requested or engine exit) -/
  | execReturn
  /-- line 53: `p_instance = nullptr` -/
  | clearInstance
  /-- line 54: `p_dispatcher = nullptr` -/
  | clearDispatcher
  /-- line 55: `p_frontend = nullptr` -/
  | clearFrontend
deriving DecidableEq

/-- Effect of one atomic action on the four globals.  Only the seven writes
touch them; note no action ever clears `p_uuid`. -/
def applyAct (h : Handle) : Act → Handle
  | Act.makeInstance => { h with p_instance := some () }
  | Act.makeDispatcher => { h with p_dispatcher := some () }
  | Act.storeFrontend => { h with p_frontend := some () }
  | Act.storeUuid => { h with p_uuid := some () }
  | Act.clearInstance => { h with p_instance := none }
  | Act.clearDispatcher => { h with p_dispatcher := none }
  | Act.clearFrontend => { h with p_frontend := none }
  | _ => h

/-- The actions of the `startupFcitx` call itself up to entering `exec`
(lines 75-149, first-call case). -/
def startupCallActs (appData appLib extData : String) : List Act :=
  Act.logMsg "startupFcitx" ::
    (envAssignments appData appLib extData).map (fun p => Act.setEnvVar p.1 p.2) ++
    [Act.makeInstance, Act.registerLoader, Act.makeDispatcher,
     Act.attachDispatcher, Act.scheduleInit]

/-- The actions the wiring work item performs when the event loop executes
it (lines 135-148), in source order: `p_frontend` is stored before
`p_uuid`. -/
def initItemActs : List Act :=
  [Act.groupConfig, Act.wireCallbacks, Act.createContext,
   Act.storeFrontend, Act.storeUuid]

/-- The actions of `resetGlobalPointers` (lines 52-55), in source order. -/
def resetActs : List Act :=
  [Act.logMsg "resetGlobalPointers", Act.clearInstance, Act.clearDispatcher,
   Act.clearFrontend]

/-- All atomic actions of one complete startup / run / shutdown cycle, in
execution order. -/
def startupCycleActs (appData appLib extData : String) : List Act :=
  startupCallActs appData appLib extData ++ [Act.execStart] ++ initItemActs ++
    [Act.execReturn] ++ resetActs

/-- Every `Handle` value observable during one complete cycle started from
the fully-unset state: the state before the first action and after each
action. -/
def handleStates (appData appLib extData : String) : List Handle :=
  (startupCycleActs appData appLib extData).scanl applyAct Handle.unset

/-! ### Callback marshaler (lines 100-125)

A JNI `jobjectArray` of strings is modelled as a `List (Option String)`:
`NewObjectArray size stringClass nullptr` yields `size` null slots, and
`SetObjectArrayElement` stores a string at an index.  Each callback builds
such an array and invokes `handleFcitxEvent(kind, array)`; we model the
pair the host entry point receives. -/

/-- `env->NewObjectArray(size, stringClass, nullptr)`: `size` null refs. -/
def newObjectArray (size : Nat) : List (Option String) :=
  List.replicate size none

/-- `env->SetObjectArrayElement(a, i, s)`. -/
def setObjectArrayElement (a : List (Option String)) (i : Nat) (s : String) :
    List (Option String) :=
  a.set i (some s)

/-- `candidateListCallback` (lines 100-108): allocate an array of the list's
size, store each candidate at consecutive indices via the `i++` loop, and
deliver kind 0. -/
def candidateListCallback (candidateList : List String) : Nat × List (Option String) :=
  let size := candidateList.length
  let vararg := newObjectArray size
  let filled := candidateList.foldl
    (fun acc s => (setObjectArrayElement acc.1 acc.2 s, acc.2 + 1)) (vararg, 0)
  (0, filled.1)

/-- `commitStringCallback` (lines 109-113): one-slot array, kind 1. -/
def commitStringCallback (str : String) : Nat × List (Option String) :=
  (1, setObjectArrayElement (newObjectArray 1) 0 str)

/-- `preeditCallback` (lines 114-119): two-slot array `(preedit,
clientPreedit)`, kind 2. -/
def preeditCallback (preedit clientPreedit : String) : Nat × List (Option String) :=
  (2, setObjectArrayElement
    (setObjectArrayElement (newObjectArray 2) 0 preedit) 1 clientPreedit)

/-- `inputPanelAuxCallback` (lines 120-125): two-slot array `(auxUp,
auxDown)`, kind 3. -/
def inputPanelAuxCallback (auxUp auxDown : String) : Nat × List (Option String) :=
  (3, setObjectArrayElement
    (setObjectArrayElement (newObjectArray 2) 0 auxUp) 1 auxDown)

/-! ### Log relay (lines 17-27)

`logger_thread` loops on `read(pfd[0], buf, 127)`.  Each successful read
yields one chunk of at most 127 bytes; the code drops the final byte if it
is a newline, writes a NUL terminator, and hands the buffer to
`__android_log_write` — which reads it as a C string, i.e. up to the first
NUL.  One `__android_log_write` call is made per chunk. -/

/-- The line `logger_thread` forwards for one successfully read chunk
(lines 21-24): strip one trailing newline, then the C-string boundary of
`__android_log_write` truncates at the first interior NUL byte. -/
def processChunk (chunk : List Char) : List Char :=
  let trimmed := if chunk.getLast? = some '\n' then chunk.dropLast else chunk
  trimmed.takeWhile (fun ch => ch ≠ Char.ofNat 0)

/-- The lines forwarded to the log sink for a sequence of successful reads:
exactly one per chunk. -/
def loggerThread (chunks : List (List Char)) : List (List Char) :=
  chunks.map processChunk

/-- Modelled from the spec (section 4.1 / 8): "splits on newline, strips a
trailing newline, and forwards each resulting line".  The lines of a byte
stream: split on newline, with no final empty line when the stream ends in
a newline.  Used only to compare the spec's description against
`loggerThread`. -/
def splitLinesSpec (stream : List Char) : List (List Char) :=
  let parts := stream.splitOn '\n'
  if stream.getLast? = some '\n' then parts.dropLast else parts

/-- A fully-running state, used to instantiate theorems with hypotheses. -/
def runningState : FullState :=
  { handle := ⟨some (), some (), some (), some ()⟩, env := [], queue := [],
    log := [], attached := true, exitRequested := false }

/-- Projects the `setenv` action, if any, out of an atomic action. -/
def envVarOf : Act → Option (String × String)
  | Act.setEnvVar n v => some (n, v)
  | _ => none

/-! ### Helper lemmas -/

/-- Setting the element just past a filled block writes into the head of the
remaining block. -/
theorem set_append_cons (l : List (Option String)) (x : Option String)
    (t : List (Option String)) (v : Option String) :
    (l ++ x :: t).set l.length v = l ++ v :: t := by
  induction l with
  | nil => rfl
  | cons a l ih => simp [List.set, ih]

/-- The candidate fill loop of lines 103-106, generalized: starting from a
filled block `done` and null slots for the remaining candidates, the loop
stores each candidate in order. -/
theorem candidate_fill (cs : List String) (done : List (Option String)) :
    (cs.foldl (fun acc s => (setObjectArrayElement acc.1 acc.2 s, acc.2 + 1))
      (done ++ List.replicate cs.length none, done.length)).1 =
      done ++ cs.map some := by
  induction cs generalizing done with
  | nil => simp
  | cons s cs ih =>
      simp only [List.length_cons, List.replicate_succ, List.foldl_cons,
        List.map_cons, setObjectArrayElement, set_append_cons]
      have h := ih (done ++ [some s])
      simp only [List.length_append, List.length_cons, List.length_nil,
        List.append_assoc, List.cons_append, List.nil_append] at h
      simpa using h

/-- After `resetGlobalPointers` the three pointers are null and `p_uuid` is
whatever it was. -/
theorem resetGlobalPointers_handle (st : FullState) :
    (resetGlobalPointers st).handle = ⟨none, none, none, st.handle.p_uuid⟩ := rfl

/-! ### Claim theorems -/

/-- C1, counterexample: during startup the handle is observable (by a
guarded operation on another host thread, between two of the atomic writes
of the cycle) in the state where `p_instance` is set but the other three
fields are not — neither fully set nor fully unset, contradicting the claim
that only those two states are observable. -/
theorem c1_partial_state_observable :
    (⟨some (), none, none, none⟩ : Handle) ∈ handleStates "a" "l" "e" ∧
    ¬ ((Handle.mk (some ()) none none none).allSet = true ∨
       (Handle.mk (some ()) none none none).allUnset = true) := by
  decide

/-- C1, amended: the handle states observable over one startup / run /
shutdown cycle (between atomic writes) are exactly these, in order: fully
unset; instance only; instance+dispatcher; instance+dispatcher+frontend;
all four; then, during reset, dispatcher+frontend+contextId,
frontend+contextId, and finally contextId alone — partially-initialized and
partially-reset states are observable by guarded operations, and `p_uuid`
(contextId) is never cleared. -/
theorem c1_handle_states_enumerated (appData appLib extData : String) :
    handleStates appData appLib extData =
      List.replicate 10 (⟨none, none, none, none⟩ : Handle) ++
      List.replicate 2 ⟨some (), none, none, none⟩ ++
      List.replicate 7 ⟨some (), some (), none, none⟩ ++
      [⟨some (), some (), some (), none⟩] ++
      List.replicate 3 ⟨some (), some (), some (), some ()⟩ ++
      [⟨none, some (), some (), some ()⟩,
       ⟨none, none, some (), some ()⟩,
       ⟨none, none, none, some ()⟩] := by
  rfl

/-- C2: a second `startupFcitx` while `p_instance` is non-null (in
particular while the engine handle is fully set) returns 2 and changes
nothing except appending the "already running" log line: the environment,
the handle, and the queue of the first run are untouched. -/
theorem c2_startup_already_running (appData appLib extData : String)
    (o : ExecOutcome) (st : FullState) (h : st.handle.p_instance.isSome) :
    (startupFcitx appData appLib extData o st).1 = 2 ∧
    (startupFcitx appData appLib extData o st).2 =
      { st with log := st.log ++ ["fcitx already running"] } := by
  constructor <;> simp [startupFcitx, h]

/-- C2 witness at a concrete fully-running state. -/
theorem c2_startup_already_running_witness :
    (startupFcitx "a" "l" "e" ExecOutcome.quietQuit runningState).1 = 2 ∧
    (startupFcitx "a" "l" "e" ExecOutcome.quietQuit runningState).2 =
      { runningState with log := runningState.log ++ ["fcitx already running"] } :=
  c2_startup_already_running "a" "l" "e" ExecOutcome.quietQuit runningState
    (by decide)

/-- C3: whenever the guard of DO_IF_NOT_RUNNING fires (any of the three
checked globals null — in particular when the handle is fully unset),
`isInputPanelEmpty` returns true and every command (both sendKey overloads,
`selectCandidate`, `resetInputPanel`, `exitFcitx`) only logs the warning
and leaves the rest of the state — handle, environment, queue — untouched;
all the operations are total, so nothing is raised past the boundary. -/
theorem c3_guarded_ops_not_running (st : FullState) (ans : Bool)
    (key : List Nat) (c : Nat) (rest : List Nat) (idx : Int)
    (h : st.handle.notRunning = true) :
    isInputPanelEmpty st ans =
      (true, { st with log := st.log ++ [notRunningMsg] }) ∧
    sendKeyToFcitxString st key = { st with log := st.log ++ [notRunningMsg] } ∧
    sendKeyToFcitxChar st c rest = { st with log := st.log ++ [notRunningMsg] } ∧
    selectCandidate st idx = { st with log := st.log ++ [notRunningMsg] } ∧
    resetInputPanel st = { st with log := st.log ++ [notRunningMsg] } ∧
    exitFcitx st = { st with log := st.log ++ [notRunningMsg] } := by
  refine ⟨?_, ?_, ?_, ?_, ?_, ?_⟩ <;>
    simp [isInputPanelEmpty, sendKeyToFcitxString, sendKeyToFcitxChar,
      selectCandidate, resetInputPanel, exitFcitx, h]

/-- C3 witness at the process-start state (handle fully unset). -/
theorem c3_guarded_ops_not_running_witness :
    isInputPanelEmpty initialState false =
      (true, { initialState with log := [notRunningMsg] }) ∧
    sendKeyToFcitxString initialState [97] =
      { initialState with log := [notRunningMsg] } ∧
    sendKeyToFcitxChar initialState 97 [0] =
      { initialState with log := [notRunningMsg] } ∧
    selectCandidate initialState 2 =
      { initialState with log := [notRunningMsg] } ∧
    resetInputPanel initialState =
      { initialState with log := [notRunningMsg] } ∧
    exitFcitx initialState = { initialState with log := [notRunningMsg] } :=
  c3_guarded_ops_not_running initialState false [97] 97 [0] 2 (by decide)

/-- C4, counterexample: after a full startup / run / quiet-exit cycle from
the process-start state, the handle is not fully unset — `p_uuid`
(contextId) is still set, because `resetGlobalPointers` clears only
`p_instance`, `p_dispatcher` and `p_frontend`. -/
theorem c4_uuid_not_reset_cex :
    (startupFcitx "a" "l" "e" (ExecOutcome.normal 0) initialState).2.handle =
      ⟨none, none, none, some ()⟩ ∧
    (startupFcitx "a" "l" "e" (ExecOutcome.normal 0) initialState).2.handle ≠
      Handle.unset := by
  decide

/-- C4, amended: on every return path of a startup that began a run —
normal return of the run loop, the quiet-quit condition, and a caught
failure — the three pointer fields `p_instance`, `p_dispatcher`,
`p_frontend` are reset to unset (by three sequential writes) before
`startupFcitx` returns; the fourth field `p_uuid` is not reset and remains
set. -/
theorem c4_startup_resets_pointer_fields (appData appLib extData : String)
    (o : ExecOutcome) (st : FullState) (h : st.handle.p_instance = none) :
    (startupFcitx appData appLib extData o st).2.handle.p_instance = none ∧
    (startupFcitx appData appLib extData o st).2.handle.p_dispatcher = none ∧
    (startupFcitx appData appLib extData o st).2.handle.p_frontend = none ∧
    (startupFcitx appData appLib extData o st).2.handle.p_uuid = some () := by
  cases o <;>
    simp [startupFcitx, h, resetGlobalPointers_handle, execLoop,
      List.foldl_append, runWorkItem]

/-- C4 witness: a concrete failing run from the process-start state. -/
theorem c4_startup_resets_pointer_fields_witness :
    (startupFcitx "a" "l" "e" (ExecOutcome.failure "boom") initialState).2.handle.p_instance = none ∧
    (startupFcitx "a" "l" "e" (ExecOutcome.failure "boom") initialState).2.handle.p_dispatcher = none ∧
    (startupFcitx "a" "l" "e" (ExecOutcome.failure "boom") initialState).2.handle.p_frontend = none ∧
    (startupFcitx "a" "l" "e" (ExecOutcome.failure "boom") initialState).2.handle.p_uuid = some () :=
  c4_startup_resets_pointer_fields "a" "l" "e" (ExecOutcome.failure "boom")
    initialState rfl

/-- C5: the status code of `startupFcitx` is exactly: 2 when an instance is
already running (whatever the outcome parameter); otherwise 0 on quiet
quit, 1 on an uncaught failure (whose message goes to the log, not the
return value), and the run loop's own exit code on a normal return. -/
theorem c5_startup_status_codes (appData appLib extData : String)
    (st : FullState) :
    (∀ o, st.handle.p_instance.isSome →
      (startupFcitx appData appLib extData o st).1 = 2) ∧
    (st.handle.p_instance = none →
      (startupFcitx appData appLib extData ExecOutcome.quietQuit st).1 = 0 ∧
      (∀ msg, (startupFcitx appData appLib extData (ExecOutcome.failure msg) st).1 = 1) ∧
      (∀ code, (startupFcitx appData appLib extData (ExecOutcome.normal code) st).1 = code)) := by
  constructor
  · intro o ho
    simp [startupFcitx, ho]
  · intro h
    refine ⟨?_, fun msg => ?_, fun code => ?_⟩ <;> simp [startupFcitx, h]

/-- C5 witness: the four status codes at concrete inputs. -/
theorem c5_startup_status_codes_witness :
    (startupFcitx "a" "l" "e" ExecOutcome.quietQuit runningState).1 = 2 ∧
    (startupFcitx "a" "l" "e" ExecOutcome.quietQuit initialState).1 = 0 ∧
    (startupFcitx "a" "l" "e" (ExecOutcome.failure "boom") initialState).1 = 1 ∧
    (startupFcitx "a" "l" "e" (ExecOutcome.normal 5) initialState).1 = 5 :=
  ⟨(c5_startup_status_codes "a" "l" "e" runningState).1 ExecOutcome.quietQuit
      (by decide),
   ((c5_startup_status_codes "a" "l" "e" initialState).2 rfl).1,
   ((c5_startup_status_codes "a" "l" "e" initialState).2 rfl).2.1 "boom",
   ((c5_startup_status_codes "a" "l" "e" initialState).2 rfl).2.2 5⟩

/-- C6: when the guard passes (handle live), `exitFcitx` appends exactly
one work item — the shutdown closure — to the dispatcher queue, logs, and
returns with that item still pending (it executes nothing itself: handle,
attachment and exit-request are unchanged); executing that item detaches
the dispatcher and requests the instance to exit.  When the guard fires,
`exitFcitx` only logs the warning — a no-op, not an error. -/
theorem c6_exitFcitx_behavior (st other : FullState) :
    (st.handle.notRunning = false →
      exitFcitx st =
        { st with
          log := st.log ++ ["shutting down fcitx"],
          queue := st.queue ++ [WorkItem.shutdownReq] }) ∧
    (st.handle.notRunning = true →
      exitFcitx st = { st with log := st.log ++ [notRunningMsg] }) ∧
    runWorkItem other WorkItem.shutdownReq =
      { other with attached := false, exitRequested := true } := by
  refine ⟨fun h => ?_, fun h => ?_, rfl⟩ <;> simp [exitFcitx, h]

/-- C6 witness: both guard outcomes at concrete states. -/
theorem c6_exitFcitx_behavior_witness :
    exitFcitx runningState =
      { runningState with
        log := ["shutting down fcitx"],
        queue := [WorkItem.shutdownReq] } ∧
    exitFcitx initialState = { initialState with log := [notRunningMsg] } ∧
    runWorkItem runningState WorkItem.shutdownReq =
      { runningState with attached := false, exitRequested := true } :=
  ⟨(c6_exitFcitx_behavior runningState runningState).1 (by decide),
   (c6_exitFcitx_behavior initialState runningState).2.1 (by decide),
   (c6_exitFcitx_behavior initialState runningState).2.2⟩

/-- C7: each callback delivers to `handleFcitxEvent` exactly the payload the
addon produced: kind 0 with the candidates in order (array length = number
of candidates), kind 1 with a one-element array, kind 2 with
(preedit, clientPreedit), kind 3 with (auxUp, auxDown). -/
theorem c7_notification_payloads (cs : List String) (s p cp up down : String) :
    candidateListCallback cs = (0, cs.map some) ∧
    (candidateListCallback cs).2.length = cs.length ∧
    commitStringCallback s = (1, [some s]) ∧
    preeditCallback p cp = (2, [some p, some cp]) ∧
    inputPanelAuxCallback up down = (3, [some up, some down]) := by
  have hfill := candidate_fill cs []
  simp only [List.nil_append, List.length_nil] at hfill
  refine ⟨?_, ?_, rfl, rfl, rfl⟩
  · unfold candidateListCallback newObjectArray
    exact Prod.ext rfl hfill
  · unfold candidateListCallback newObjectArray
    simp [hfill]

/-- C8: all eight environment variables — the path-skip flag, the HOME
override, and the data/config/addon/language-model search paths, each
derived from the three path arguments as shown — are established strictly
before the engine instance is constructed: the `setenv` actions occurring
before `makeInstance` in the startup cycle are exactly all of them. -/
theorem c8_env_before_instance (appData appLib extData : String) :
    ((startupCycleActs appData appLib extData).takeWhile
        (fun act => decide (act ≠ Act.makeInstance))).filterMap envVarOf =
      envAssignments appData appLib extData ∧
    (startupCycleActs appData appLib extData).filterMap envVarOf =
      envAssignments appData appLib extData ∧
    Act.makeInstance ∈ startupCycleActs appData appLib extData ∧
    envAssignments appData appLib extData =
      [("SKIP_FCITX_PATH", "true"),
       ("HOME", extData),
       ("XDG_DATA_DIRS", appData),
       ("XDG_CONFIG_HOME", extData),
       ("XDG_DATA_HOME", extData),
       ("FCITX_ADDON_DIRS", appLib),
       ("LIBIME_MODEL_DIRS", appData ++ "/fcitx5/libime"),
       ("LIBIME_INSTALL_PKGDATADIR", appData ++ "/fcitx5/libime")] := by
  refine ⟨rfl, rfl, ?_, rfl⟩
  simp [startupCycleActs, startupCallActs]

/-- C9, counterexample: a single read that delivers two lines at once is
forwarded as one chunk with only the trailing newline stripped — the relay
does not split on interior newlines, so its output differs from the
spec-described split of the same byte stream. -/
theorem c9_no_interior_split_cex :
    loggerThread [['a', '\n', 'b', '\n']] = [['a', '\n', 'b']] ∧
    splitLinesSpec (List.flatten [['a', '\n', 'b', '\n']]) = [['a'], ['b']] ∧
    loggerThread [['a', '\n', 'b', '\n']] ≠
      splitLinesSpec (List.flatten [['a', '\n', 'b', '\n']]) := by
  decide

/-- The chunk transform on a single newline-terminated line without
interior newline or NUL is the line itself. -/
theorem processChunk_line (l : List Char) (h0 : Char.ofNat 0 ∉ l) :
    processChunk (l ++ ['\n']) = l := by
  unfold processChunk
  rw [List.getLast?_concat, if_pos rfl, List.dropLast_concat]
  exact List.takeWhile_eq_self_iff.mpr fun x hx => by
    simp only [decide_eq_true_eq]
    exact fun heq => h0 (heq ▸ hx)

/-- C9, amended: the relay forwards exactly one line per successful read —
the chunk with a single trailing newline stripped (and truncated at an
interior NUL by the C-string boundary); it does not split chunks on
interior newlines.  Consequently, whenever each read returns exactly one
newline-terminated line, every line is forwarded exactly once; receiving
the bytes "hello\n" as one read forwards the line "hello" exactly once. -/
theorem c9_log_relay_per_chunk (chunks lines : List (List Char))
    (h : ∀ l ∈ lines, Char.ofNat 0 ∉ l) :
    (loggerThread chunks).length = chunks.length ∧
    loggerThread (lines.map (fun l => l ++ ['\n'])) = lines := by
  constructor
  · simp [loggerThread]
  · unfold loggerThread
    rw [List.map_map]
    exact List.map_congr_left (fun l hl => processChunk_line l (h l hl)) |>.trans
      (List.map_id _)

/-- C9 witness: the "hello\n" scenario, and one-forward-per-read on a
concrete two-read sequence. -/
theorem c9_log_relay_per_chunk_witness :
    (loggerThread [['a', '\n', 'b', '\n'], ['x']]).length = 2 ∧
    loggerThread [['h', 'e', 'l', 'l', 'o', '\n']] =
      [['h', 'e', 'l', 'l', 'o']] := by
  have h := c9_log_relay_per_chunk [['a', '\n', 'b', '\n'], ['x']]
    [['h', 'e', 'l', 'l', 'o']] (by decide)
  exact ⟨h.1, h.2⟩

/-- C10, counterexample: for the code unit 256 the low-order byte is 0, so
the reinterpreted C string is empty no matter what bytes follow the value
in memory — the bytes read are fully determined by the character value,
contradicting the claim that no code unit of 256 or more has this
property. -/
theorem c10_char_256_determined_cex :
    256 ≤ 256 ∧ charKeyBytes 256 [7, 7] = [] ∧ charKeyBytes 256 [9] = [] ∧
    charKeyDetermined 256 :=
  ⟨Nat.le_refl 256, rfl, rfl, fun _ _ => rfl⟩

/-- C10, amended: when the engine is running, the single-character sendKey
overload schedules the key parsed from the C string formed by the
little-endian bytes of the 16-bit value followed by adjacent memory; for a
code unit that fits in one byte the bytes read equal those of the
corresponding one-byte string (the high byte is the NUL terminator); for a
code unit of 256 or more the bytes read are not determined by the
character value alone exactly when its low byte is nonzero (low byte zero
yields the empty, fully determined, string). -/
theorem c10_sendKeyChar_bytes (c : Nat) (st : FullState) (rest : List Nat) :
    (st.handle.notRunning = false →
      sendKeyToFcitxChar st c rest =
        { st with queue := st.queue ++ [WorkItem.keyEvent (charKeyBytes c rest)] }) ∧
    (c ≤ 255 → charKeyBytes c rest = cstr [c]) ∧
    (256 ≤ c → c < 65536 → c % 256 ≠ 0 → ¬ charKeyDetermined c) := by
  refine ⟨fun h => ?_, fun hc => ?_, fun h1 h2 h3 hdet => ?_⟩
  · simp [sendKeyToFcitxChar, h]
  · have hmod : c % 256 = c := Nat.mod_eq_of_lt (by omega)
    have hdiv : c / 256 = 0 := Nat.div_eq_of_lt (by omega)
    by_cases h0 : c = 0
    · subst h0; rfl
    · simp [charKeyBytes, leBytes16, cstr, hmod, hdiv, List.takeWhile_cons, h0]
  · have hhi : c / 256 % 256 ≠ 0 := by omega
    have h := hdet [0] [1]
    have hlen : (charKeyBytes c [0]).length = (charKeyBytes c [1]).length := by
      rw [h]
    simp [charKeyBytes, leBytes16, cstr, List.takeWhile_cons, h3, hhi] at hlen

/-- C10 witness: concrete instances of all three parts — scheduling at a
running state, the one-byte case at 97, the undetermined case at 257. -/
theorem c10_sendKeyChar_bytes_witness :
    sendKeyToFcitxChar runningState 97 [0] =
      { runningState with queue := [WorkItem.keyEvent (charKeyBytes 97 [0])] } ∧
    charKeyBytes 97 [0] = cstr [97] ∧
    ¬ charKeyDetermined 257 :=
  ⟨(c10_sendKeyChar_bytes 97 runningState [0]).1 (by decide),
   (c10_sendKeyChar_bytes 97 runningState [0]).2.1 (by decide),
   (c10_sendKeyChar_bytes 257 runningState [0]).2.2 (by decide) (by decide)
     (by decide)⟩
